import Mathlib

/-!
Verification of the RunCam photo ingestion and face-matching pipeline.

This file shallowly embeds the core of the repository:
* `src/lib/face-ai.ts` — face detection wrapper, embedding extraction,
  selfie validation, similarity comparison;
* `src/lib/image-processor.ts` — display-image resize dimensions;
* the Drizzle schema (`vector` custom type, `claims` table defaults).

Numbers are modelled as rationals, fallible calls as `Except`, and the
stateful parts (initialization flag, tensor allocation/disposal) as
explicit state or counters.
-/

-- ===========================================================================
-- face-ai.ts : configuration
-- ===========================================================================

/-- Embedding dimension for the faceres model (`face-ai.ts` line 20). -/
def EMBEDDING_DIMENSIONS : Nat := 1024

/-- Default minimum confidence for face detection (`face-ai.ts` line 23). -/
def DEFAULT_MIN_CONFIDENCE : ℚ := 1/2

-- ===========================================================================
-- Drizzle schema (db/schema.ts) : embedding column type and claims table
-- ===========================================================================

/-- Declared dimension of the pgvector columns: the schema's custom `vector`
type has `dataType()` returning the literal string `vector(128)`, so both
`photo_embeddings.embedding` and `user_embeddings.embedding` are created as
`vector(128)` columns (confirmed by the generated migration SQL). -/
def vectorColumnDimension : Nat := 128

/-- Whether a pgvector column declared as `vector(128)` accepts a value:
pgvector enforces the declared dimension on insert. -/
def embeddingColumnAccepts (v : List ℚ) : Bool :=
  v.length == vectorColumnDimension

/-- The `claim_status` enum of the schema. -/
inductive ClaimStatus where
  | pending
  | approved
  | rejected
deriving DecidableEq, Repr

/-- Default of the `status` column of the `claims` table:
`claimStatusEnum("status").notNull().default("approved")`. -/
def claimStatusDefault : ClaimStatus := ClaimStatus.approved

/-- A row of the `claims` table (the columns the claims are about). -/
structure ClaimRow where
  photoId : String
  claimantId : String
  status : ClaimStatus
  matchScore : Option ℚ
deriving DecidableEq, Repr

/-- Creating a `claims` row: a column with a schema default takes that
default when the insert supplies no explicit value. -/
def insertClaim (photoId claimantId : String)
    (status? : Option ClaimStatus) (matchScore : Option ℚ) : ClaimRow :=
  { photoId := photoId
    claimantId := claimantId
    status := status?.getD claimStatusDefault
    matchScore := matchScore }

-- ===========================================================================
-- face-ai.ts : detection result model
-- ===========================================================================

/-- One face of a raw Human detection result, restricted to the fields the
wrapper reads (`face.embedding`, `face.boxRaw`, `face.faceScore`, `face.age`,
`face.gender`, `face.genderScore`, `face.real`, `face.live`).  Fields the
backend may omit are `Option`. -/
structure RawFace where
  embedding : Option (List ℚ)
  boxRaw : ℚ × ℚ × ℚ × ℚ
  faceScore : ℚ
  age : Option ℚ := none
  gender : Option String := none
  genderScore : Option ℚ := none
  real : Option ℚ := none
  live : Option ℚ := none
deriving DecidableEq, Repr

instance : Inhabited RawFace :=
  ⟨{ embedding := none, boxRaw := (0, 0, 0, 0), faceScore := 0 }⟩

/-- `DetectedFace` of `face-ai.ts` (lines 57–72). -/
structure DetectedFace where
  index : Nat
  embedding : List ℚ
  box : ℚ × ℚ × ℚ × ℚ
  confidence : ℚ
  age : Option ℚ
  gender : Option String
  genderScore : Option ℚ
deriving DecidableEq, Repr, Inhabited

/-- `PhotoProcessingResult` of `face-ai.ts` (lines 75–80). -/
structure PhotoProcessingResult where
  facesCount : Nat
  faces : List DetectedFace
deriving DecidableEq, Repr

/-- The filter of `processPhotoForEmbeddings` (line 205–207):
`Boolean(face.embedding && face.embedding.length === EMBEDDING_DIMENSIONS)`.
In JS a present array (even empty) is truthy, so the condition holds exactly
when the embedding is present with length `EMBEDDING_DIMENSIONS`. -/
def hasValidEmbedding (f : RawFace) : Bool :=
  match f.embedding with
  | some e => e.length == EMBEDDING_DIMENSIONS
  | none => false

/-- The `.filter(...).map((face, index) => ...)` body of
`processPhotoForEmbeddings` (lines 204–216): keep faces with a
1024-dimensional embedding and re-index them in filtered order. -/
def extractFaces (faces : List RawFace) : List DetectedFace :=
  (faces.filter hasValidEmbedding).enum.map fun p =>
    { index := p.1
      embedding := p.2.embedding.getD []
      box := p.2.boxRaw
      confidence := p.2.faceScore
      age := p.2.age
      gender := p.2.gender
      genderScore := p.2.genderScore }

/-- Failures `processPhotoForEmbeddings` / `validateSelfie` can throw:
the explicit not-initialized `Error`, or a propagated backend exception
(decode failure, detection failure). -/
inductive FaceAiFailure where
  | notInitialized
  | backend (msg : String)
deriving DecidableEq, Repr

/-- Allocation/disposal counts of the per-call image tensor. -/
structure ResourceTrace where
  allocated : Nat
  disposed : Nat
deriving DecidableEq, Repr

/-- `processPhotoForEmbeddings` (`face-ai.ts` lines 192–225).  The external
effects are passed in as outcomes: `decode` is the result of
`decodeImage(imageBuffer)` (which throws on a corrupt buffer before any
tensor exists) and `det` the result of `human.detect(tensor)`.  The
`try`/`finally` is modelled by the `ResourceTrace`: the decoded tensor is
disposed on the success path and on the exception path alike. -/
def processPhotoForEmbeddings (isInitialized : Bool)
    (decode : Except String Unit) (det : Except String (List RawFace)) :
    Except FaceAiFailure PhotoProcessingResult × ResourceTrace :=
  if isInitialized = false then
    (Except.error FaceAiFailure.notInitialized, ⟨0, 0⟩)
  else
    match decode with
    | Except.error e => (Except.error (FaceAiFailure.backend e), ⟨0, 0⟩)
    | Except.ok _ =>
      match det with
      | Except.error e => (Except.error (FaceAiFailure.backend e), ⟨1, 1⟩)
      | Except.ok faces =>
        let fs := extractFaces faces
        (Except.ok { facesCount := fs.length, faces := fs }, ⟨1, 1⟩)

-- C1: the extractor only emits 1024-length embeddings, but the schema's
-- embedding columns are declared vector(128).

/-- Every face kept by the extractor comes from a raw face passing
`hasValidEmbedding`, and inherits that face's embedding. -/
theorem mem_extractFaces {faces : List RawFace} {f : DetectedFace}
    (hf : f ∈ extractFaces faces) :
    ∃ r, r ∈ faces.filter hasValidEmbedding ∧
      f.embedding = r.embedding.getD [] := by
  unfold extractFaces at hf
  obtain ⟨p, hp, hpf⟩ := List.mem_map.1 hf
  have hlen := List.mem_enum_iff_getElem?.1 hp
  have hmem : p.2 ∈ faces.filter hasValidEmbedding := List.getElem?_mem hlen
  exact ⟨p.2, hmem, by rw [← hpf]⟩

/-- A raw face passing `hasValidEmbedding` has a present embedding of length
exactly `EMBEDDING_DIMENSIONS`. -/
theorem length_of_hasValidEmbedding {r : RawFace}
    (h : hasValidEmbedding r = true) :
    (r.embedding.getD []).length = EMBEDDING_DIMENSIONS := by
  unfold hasValidEmbedding at h
  cases hemb : r.embedding with
  | none => rw [hemb] at h; cases h
  | some e =>
    rw [hemb] at h
    simpa using h

/-- C1 — every face emitted by the extractor carries an embedding of length
`EMBEDDING_DIMENSIONS` (= 1024), and no such embedding is accepted by the
schema's embedding columns, which are declared `vector(128)`: the persisted
embedding length cannot equal the configured backend dimensionality for both
the extractor and the storage layer, refuting the process-wide consistency
invariant (the repo's own docs and seed script use 1024, so the schema is the
slip). -/
theorem extractor_emits_1024_but_column_accepts_128 (faces : List RawFace)
    (f : DetectedFace) (hf : f ∈ extractFaces faces) :
    f.embedding.length = EMBEDDING_DIMENSIONS ∧
      embeddingColumnAccepts f.embedding = false := by
  obtain ⟨r, hr, hemb⟩ := mem_extractFaces hf
  have hvalid : hasValidEmbedding r = true := List.of_mem_filter hr
  have hlen : f.embedding.length = EMBEDDING_DIMENSIONS := by
    rw [hemb]; exact length_of_hasValidEmbedding hvalid
  refine ⟨hlen, ?_⟩
  simp [embeddingColumnAccepts, hlen, EMBEDDING_DIMENSIONS,
    vectorColumnDimension]

/-- A concrete detection result with one well-formed face. -/
def sampleRawFace : RawFace :=
  { embedding := some (List.replicate 1024 0)
    boxRaw := (0, 0, 1, 1)
    faceScore := 9/10 }

/-- The face the extractor produces from `sampleRawFace`. -/
def sampleDetectedFace : DetectedFace :=
  { index := 0
    embedding := List.replicate 1024 0
    box := (0, 0, 1, 1)
    confidence := 9/10
    age := none
    gender := none
    genderScore := none }

set_option maxRecDepth 20000 in
/-- For the concrete one-face detection result, the extractor emits exactly
`sampleDetectedFace`. -/
theorem extractFaces_sample :
    extractFaces [sampleRawFace] = [sampleDetectedFace] := by
  have hv : hasValidEmbedding sampleRawFace = true := by
    simp [hasValidEmbedding, sampleRawFace, EMBEDDING_DIMENSIONS]
  simp only [extractFaces, List.filter_cons, hv, if_true, List.filter_nil,
    List.enum, List.enumFrom, List.map]
  simp [sampleRawFace, sampleDetectedFace]

/-- Witness for C1: the face extracted from a concrete one-face detection
result has a 1024-dimensional embedding that the `vector(128)` column
rejects. -/
theorem extractor_emits_1024_but_column_accepts_128_witness :
    sampleDetectedFace ∈ extractFaces [sampleRawFace] ∧
      sampleDetectedFace.embedding.length = EMBEDDING_DIMENSIONS ∧
      embeddingColumnAccepts sampleDetectedFace.embedding = false := by
  have hmem : sampleDetectedFace ∈ extractFaces [sampleRawFace] := by
    rw [extractFaces_sample]; exact List.mem_singleton_self _
  exact ⟨hmem,
    extractor_emits_1024_but_column_accepts_128 [sampleRawFace]
      sampleDetectedFace hmem⟩

-- C10: default claim status.

/-- C10 — a `claims` row created without an explicit status gets the schema
default `approved`, which is not the `pending` state. -/
theorem insertClaim_default_status_approved (p c : String) (m : Option ℚ) :
    (insertClaim p c none m).status = ClaimStatus.approved ∧
      ClaimStatus.approved ≠ ClaimStatus.pending := by
  constructor
  · rfl
  · intro h
    cases h

-- ===========================================================================
-- face-ai.ts : selfie validation (lines 254–336)
-- ===========================================================================

/-- `SelfieValidationResult` of `face-ai.ts` (lines 83–94). -/
structure SelfieValidationResult where
  isValid : Bool
  error : Option String := none
  embedding : Option (List ℚ) := none
  realScore : Option ℚ := none
  liveScore : Option ℚ := none
deriving DecidableEq, Repr

/-- Options of `validateSelfie` with the source defaults
(`minRealScore = 0.5`, `minLiveScore = 0.5`, `minConfidence = 0.6`). -/
structure SelfieOptions where
  minRealScore : ℚ := 1/2
  minLiveScore : ℚ := 1/2
  minConfidence : ℚ := 3/5
deriving DecidableEq, Repr

/-- Error message of check 1 (`face-ai.ts` line 284). -/
def noFaceMsg : String := "No face detected in the image"

/-- Error message of check 2 (line 291). -/
def multiFaceMsg : String :=
  "Multiple faces detected. Please upload a photo with only your face"

/-- Error message of check 3 (line 299). -/
def notClearMsg : String :=
  "Face not clearly visible. Please upload a clearer photo"

/-- Error message of check 4 (line 304). -/
def noFeaturesMsg : String :=
  "Could not extract face features. Please try another photo"

/-- Error message of check 5 (line 312). -/
def fakeMsg : String := "Photo appears to be fake or computer-generated"

/-- Error message of check 6 (line 322). -/
def recordingMsg : String := "Photo appears to be a recording or printout"

/-- The check cascade of `validateSelfie` on the detection result
(`face-ai.ts` lines 282–332), translated clause by clause:
zero faces, multiple faces, low confidence, missing/mis-sized embedding,
low anti-spoof score (`face.real ?? 0`), low liveness score
(`face.live ?? 0`), then success. -/
def validateSelfieChecks (faces : List RawFace) (opts : SelfieOptions) :
    SelfieValidationResult :=
  match faces with
  | [] => { isValid := false, error := some noFaceMsg }
  | face :: rest =>
    if rest.length > 0 then
      { isValid := false, error := some multiFaceMsg }
    else if face.faceScore < opts.minConfidence then
      { isValid := false, error := some notClearMsg }
    else if face.embedding = none
        ∨ (face.embedding.getD []).length ≠ EMBEDDING_DIMENSIONS then
      { isValid := false, error := some noFeaturesMsg }
    else
      let realScore := face.real.getD 0
      if realScore < opts.minRealScore then
        { isValid := false, error := some fakeMsg, realScore := some realScore }
      else
        let liveScore := face.live.getD 0
        if liveScore < opts.minLiveScore then
          { isValid := false, error := some recordingMsg,
            liveScore := some liveScore }
        else
          { isValid := true, embedding := face.embedding,
            realScore := some realScore, liveScore := some liveScore }

/-- `validateSelfie` (`face-ai.ts` lines 254–336): options defaulting, the
not-initialized throw, decode, detection with antispoof/liveness enabled,
the check cascade, and the `finally` disposal of the decoded tensor. -/
def validateSelfie (isInitialized : Bool) (decode : Except String Unit)
    (det : Except String (List RawFace)) (opts : SelfieOptions) :
    Except FaceAiFailure SelfieValidationResult × ResourceTrace :=
  if isInitialized = false then
    (Except.error FaceAiFailure.notInitialized, ⟨0, 0⟩)
  else
    match decode with
    | Except.error e => (Except.error (FaceAiFailure.backend e), ⟨0, 0⟩)
    | Except.ok _ =>
      match det with
      | Except.error e => (Except.error (FaceAiFailure.backend e), ⟨1, 1⟩)
      | Except.ok faces => (Except.ok (validateSelfieChecks faces opts), ⟨1, 1⟩)

-- Spec side of C2: the ordered short-circuit gate.

/-- First-failing-check semantics: walk the ordered list of
(fail-condition, rejection) pairs and return the first rejection whose
condition holds, else the acceptance result. -/
def firstFailure :
    List (Bool × SelfieValidationResult) → SelfieValidationResult →
      SelfieValidationResult
  | [], pass => pass
  | (cond, res) :: rest, pass =>
    if cond then res else firstFailure rest pass

/-- The Selfie Gate as the spec words it: six checks evaluated in a fixed
order, the first failing one short-circuiting with its specific error
message, acceptance otherwise. -/
def selfieGateSpec (faces : List RawFace) (opts : SelfieOptions) :
    SelfieValidationResult :=
  let face := faces.headD default
  let realScore := face.real.getD 0
  let liveScore := face.live.getD 0
  firstFailure
    [ (decide (faces.length = 0),
        { isValid := false, error := some noFaceMsg }),
      (decide (faces.length > 1),
        { isValid := false, error := some multiFaceMsg }),
      (decide (face.faceScore < opts.minConfidence),
        { isValid := false, error := some notClearMsg }),
      (decide (face.embedding = none
          ∨ (face.embedding.getD []).length ≠ EMBEDDING_DIMENSIONS),
        { isValid := false, error := some noFeaturesMsg }),
      (decide (realScore < opts.minRealScore),
        { isValid := false, error := some fakeMsg,
          realScore := some realScore }),
      (decide (liveScore < opts.minLiveScore),
        { isValid := false, error := some recordingMsg,
          liveScore := some liveScore }) ]
    { isValid := true, embedding := face.embedding,
      realScore := some realScore, liveScore := some liveScore }

/-- C2 — `validateSelfie` is exactly the ordered short-circuit gate: on every
detection result it equals the first-failing-check spec (so no later check
influences the outcome), every rejection carries no embedding, and in
particular a zero-face detection always yields the specific
"no face detected" error. -/
theorem validateSelfie_is_ordered_gate (faces : List RawFace)
    (opts : SelfieOptions) :
    validateSelfieChecks faces opts = selfieGateSpec faces opts ∧
      (validateSelfie true (Except.ok ()) (Except.ok faces) opts).1
        = Except.ok (selfieGateSpec faces opts) ∧
      ((validateSelfieChecks faces opts).isValid = false →
        (validateSelfieChecks faces opts).embedding = none) ∧
      (faces.length = 0 →
        validateSelfieChecks faces opts
          = { isValid := false, error := some noFaceMsg }) := by
  have hgate : validateSelfieChecks faces opts = selfieGateSpec faces opts := by
    match faces with
    | [] => rfl
    | face :: rest =>
      have ha : ¬ ((face :: rest).length = 0) := by simp
      by_cases h2 : rest.length > 0
      · have hb : (face :: rest).length > 1 := by
          simp only [List.length_cons]; omega
        simp [validateSelfieChecks, selfieGateSpec, firstFailure, ha, hb, h2]
      · have hb : ¬ ((face :: rest).length > 1) := by
          simp only [List.length_cons]; omega
        by_cases h3 : face.faceScore < opts.minConfidence
        · simp [validateSelfieChecks, selfieGateSpec, firstFailure, ha, hb,
            h2, h3]
        · by_cases h4 : face.embedding = none
              ∨ (face.embedding.getD []).length ≠ EMBEDDING_DIMENSIONS
          · simp [validateSelfieChecks, selfieGateSpec, firstFailure, ha, hb,
              h2, h3, h4]
          · by_cases h5 : face.real.getD 0 < opts.minRealScore
            · simp [validateSelfieChecks, selfieGateSpec, firstFailure, ha,
                hb, h2, h3, h4, h5]
            · by_cases h6 : face.live.getD 0 < opts.minLiveScore
              · simp [validateSelfieChecks, selfieGateSpec, firstFailure, ha,
                  hb, h2, h3, h4, h5, h6]
              · simp [validateSelfieChecks, selfieGateSpec, firstFailure, ha,
                  hb, h2, h3, h4, h5, h6]
  have hnone : (validateSelfieChecks faces opts).isValid = false →
      (validateSelfieChecks faces opts).embedding = none := by
    intro hfail
    match faces with
    | [] => rfl
    | face :: rest =>
      by_cases h2 : rest.length > 0
      · simp [validateSelfieChecks, h2]
      · by_cases h3 : face.faceScore < opts.minConfidence
        · simp [validateSelfieChecks, h2, h3]
        · by_cases h4 : face.embedding = none
              ∨ (face.embedding.getD []).length ≠ EMBEDDING_DIMENSIONS
          · simp [validateSelfieChecks, h2, h3, h4]
          · by_cases h5 : face.real.getD 0 < opts.minRealScore
            · simp [validateSelfieChecks, h2, h3, h4, h5]
            · by_cases h6 : face.live.getD 0 < opts.minLiveScore
              · simp [validateSelfieChecks, h2, h3, h4, h5, h6]
              · simp [validateSelfieChecks, h2, h3, h4, h5, h6] at hfail
  refine ⟨hgate, by simp [validateSelfie, hgate], hnone, ?_⟩
  intro hempty
  match faces with
  | [] => rfl
  | face :: rest => simp at hempty


/-- Witness for C2 at a concrete input: an empty detection result under the
default options is rejected with the "no face detected" error and no
embedding. -/
theorem validateSelfie_is_ordered_gate_witness :
    validateSelfieChecks [] {} = selfieGateSpec [] {} ∧
      (validateSelfie true (Except.ok ()) (Except.ok []) {}).1
        = Except.ok (selfieGateSpec [] {}) ∧
      (validateSelfieChecks [] {}).embedding = none ∧
      validateSelfieChecks [] {}
        = { isValid := false, error := some noFaceMsg } := by
  obtain ⟨h1, h2, h3, h4⟩ := validateSelfie_is_ordered_gate [] {}
  exact ⟨h1, h2, h3 (by rfl), h4 (by rfl)⟩

-- ===========================================================================
-- image-processor.ts : display transform dimensions (lines 124–180)
-- ===========================================================================

/-- Target height for display images (`image-processor.ts` line 17). -/
def DISPLAY_HEIGHT : Nat := 1080

/-- JPEG compression quality (`image-processor.ts` line 20). -/
def COMPRESSION_QUALITY : Nat := 80

/-- `ProcessingOptions` with the source defaults (lines 51–58, 128–132). -/
structure ProcessingOptions where
  targetHeight : Nat := DISPLAY_HEIGHT
  quality : Nat := COMPRESSION_QUALITY
  skipWatermark : Bool := false
deriving DecidableEq, Repr

/-- `ProcessedImage` metadata (lines 38–49); the JPEG buffer itself is out of
scope, only the dimensions are modelled. -/
structure ProcessedImage where
  width : Int
  height : Nat
  originalWidth : Nat
  originalHeight : Nat
deriving DecidableEq, Repr

/-- JavaScript's `Math.round`: round half toward positive infinity. -/
def jsRound (q : ℚ) : Int := Int.floor (q + 1/2)

/-- Evaluation rule for `jsRound`. -/
theorem jsRound_eq_of (q : ℚ) (n : ℤ) (h1 : (n : ℚ) ≤ q + 1/2)
    (h2 : q + 1/2 < (n : ℚ) + 1) : jsRound q = n := by
  unfold jsRound
  rw [Int.floor_eq_iff]
  exact ⟨h1, by exact_mod_cast h2⟩

/-- The dimension computation of `processImageForDisplay` (lines 134–180):
read the original dimensions (throwing `Could not read image dimensions`
when either is missing/zero), take
`newHeight = min(targetHeight, originalHeight)` (never upscale) and
`newWidth = Math.round(newHeight * originalWidth / originalHeight)`.
The sharp resize call is modelled as honoring the requested dimensions —
these are exactly the fallback values the source returns
(`finalMetadata.width ?? newWidth`, `finalMetadata.height ?? newHeight`);
watermarking and JPEG encoding do not change dimensions. -/
def processImageForDisplay (originalWidth originalHeight : Nat)
    (opts : ProcessingOptions) : Except String ProcessedImage :=
  if originalWidth = 0 ∨ originalHeight = 0 then
    Except.error "Could not read image dimensions"
  else
    let aspectRatio : ℚ := (originalWidth : ℚ) / (originalHeight : ℚ)
    let newHeight : Nat := min opts.targetHeight originalHeight
    let newWidth : Int := jsRound ((newHeight : ℚ) * aspectRatio)
    Except.ok
      { width := newWidth
        height := newHeight
        originalWidth := originalWidth
        originalHeight := originalHeight }

/-- C3 — no-upscale invariant: for every readable image (nonzero
dimensions) and every option set, the output height is at most the
requested target height and at most the original height, and whenever the
target is at least the original height the output height equals the
original height. -/
theorem processImageForDisplay_no_upscale (W H : Nat)
    (opts : ProcessingOptions) (r : ProcessedImage)
    (hW : 0 < W) (hH : 0 < H)
    (hr : processImageForDisplay W H opts = Except.ok r) :
    r.height ≤ opts.targetHeight ∧ r.height ≤ H ∧
      (H ≤ opts.targetHeight → r.height = H) := by
  unfold processImageForDisplay at hr
  rw [if_neg (by omega)] at hr
  cases hr
  refine ⟨Nat.min_le_left _ _, Nat.min_le_right _ _, ?_⟩
  intro hle
  exact Nat.min_eq_right hle

/-- Witness for C3 at a concrete input: a 1920×1080 image processed with the
default options keeps its 1080 height. -/
theorem processImageForDisplay_no_upscale_witness :
    processImageForDisplay 1920 1080 {}
        = Except.ok (ProcessedImage.mk 1920 1080 1920 1080) ∧
      (1080 ≤ ({} : ProcessingOptions).targetHeight ∧
        1080 ≤ 1080 ∧ (1080 ≤ ({} : ProcessingOptions).targetHeight →
          (1080 : Nat) = 1080)) := by
  have hr : processImageForDisplay 1920 1080 {}
      = Except.ok (ProcessedImage.mk 1920 1080 1920 1080) := by
    simp only [processImageForDisplay, DISPLAY_HEIGHT]
    norm_num
    refine jsRound_eq_of _ _ (by norm_num) (by norm_num)
  refine ⟨hr, ?_⟩
  have h := processImageForDisplay_no_upscale 1920 1080 {}
    (ProcessedImage.mk 1920 1080 1920 1080) (by decide) (by decide) hr
  exact ⟨h.1, h.2.1, fun _ => rfl⟩

-- C4: aspect-ratio preservation fails for small output heights; it holds
-- once the output height exceeds 50 pixels.

/-- Counterexample for C4 as stated: a 5×2 image resized to target height 1
gets width `Math.round(1 * 5/2) = 3`, and `|3/1 - 5/2| = 1/2 ≥ 0.01`. -/
theorem aspect_ratio_counterexample :
    processImageForDisplay 5 2 { targetHeight := 1 }
        = Except.ok (ProcessedImage.mk 3 1 5 2) ∧
      ¬ (|(3 : ℚ) / 1 - 5 / 2| < 1/100) := by
  constructor
  · simp only [processImageForDisplay]
    norm_num
    refine jsRound_eq_of _ _ (by norm_num) (by norm_num)
  · have habs : |(3 : ℚ) / 1 - 5 / 2| = 1/2 := by
      rw [abs_of_nonneg] <;> norm_num
    rw [habs]
    norm_num

/-- Rounding moves a rational by at most 1/2. -/
theorem abs_jsRound_sub_le (q : ℚ) : |(jsRound q : ℚ) - q| ≤ 1/2 := by
  unfold jsRound
  rw [abs_le]
  constructor
  · have h := Int.sub_one_lt_floor (q + 1/2)
    have h2 : ((Int.floor (q + 1/2) : ℚ)) > q + 1/2 - 1 := by
      exact_mod_cast lt_of_lt_of_le (by linarith [h]) (le_refl _)
    linarith
  · have h := Int.floor_le (q + 1/2)
    linarith

/-- C4 (amended) — aspect-ratio preservation holds for every resize target
whose output height exceeds 50 pixels: the output aspect ratio
`width/height` differs from the original `W/H` by less than 0.01.  (As
stated for all targets the claim is false — see
`aspect_ratio_counterexample` — because the width rounding error `≤ 1/2`
divided by a small output height can reach 0.5.) -/
theorem aspect_ratio_preserved_above_50 (W H : Nat)
    (opts : ProcessingOptions) (r : ProcessedImage)
    (hW : 0 < W) (hH : 0 < H)
    (hr : processImageForDisplay W H opts = Except.ok r)
    (hbig : 50 < r.height) :
    |(r.width : ℚ) / (r.height : ℚ) - (W : ℚ) / (H : ℚ)| < 1/100 := by
  unfold processImageForDisplay at hr
  rw [if_neg (by omega)] at hr
  cases hr
  simp only at hbig ⊢
  set h : Nat := min opts.targetHeight H with hh
  set x : ℚ := (h : ℚ) * ((W : ℚ) / (H : ℚ)) with hx
  have hhpos : (0 : ℚ) < (h : ℚ) := by
    have : 0 < h := by omega
    exact_mod_cast this
  have hWH : (W : ℚ) / (H : ℚ) = x / (h : ℚ) := by
    rw [hx]
    field_simp
    ring
  rw [hWH]
  rw [div_sub_div_same, abs_div, abs_of_pos hhpos]
  have hnum : |(jsRound x : ℚ) - x| ≤ 1/2 := abs_jsRound_sub_le x
  have h51 : (51 : ℚ) ≤ (h : ℚ) := by exact_mod_cast hbig
  have hb : |(jsRound x : ℚ) - x| / (h : ℚ) ≤ (1/2) / 51 :=
    div_le_div₀ (by norm_num) hnum (by norm_num) h51
  exact lt_of_le_of_lt hb (by norm_num)

/-- Witness for C4 (amended) at a concrete input: a 1920×1080 image with the
default target keeps height 1080 > 50 and its aspect ratio exactly. -/
theorem aspect_ratio_preserved_above_50_witness :
    processImageForDisplay 1920 1080 {}
        = Except.ok (ProcessedImage.mk 1920 1080 1920 1080) ∧
      50 < (1080 : Nat) ∧
      |((ProcessedImage.mk 1920 1080 1920 1080).width : ℚ)
          / ((ProcessedImage.mk 1920 1080 1920 1080).height : ℚ)
          - (1920 : ℚ) / (1080 : ℚ)| < 1/100 := by
  have hr : processImageForDisplay 1920 1080 {}
      = Except.ok (ProcessedImage.mk 1920 1080 1920 1080) := by
    simp only [processImageForDisplay, DISPLAY_HEIGHT]
    norm_num
    refine jsRound_eq_of _ _ (by norm_num) (by norm_num)
  exact ⟨hr, by norm_num,
    aspect_ratio_preserved_above_50 1920 1080 {}
      (ProcessedImage.mk 1920 1080 1920 1080)
      (by norm_num) (by norm_num) hr (by norm_num)⟩

-- ===========================================================================
-- Similarity backend and the Match Engine (spec §4.5)
-- ===========================================================================

/-- Sum of coordinatewise squared differences over the common prefix of two
vectors (the distance accumulation loop of a Euclidean-style face-descriptor
distance). -/
def sqDist : List ℚ → List ℚ → ℚ
  | x :: xs, y :: ys => (x - y)^2 + sqDist xs ys
  | _, _ => 0

/-- Clamp a score to the interval [0,1]. -/
def clamp01 (x : ℚ) : ℚ := if x < 0 then 0 else if 1 < x then 1 else x

/-- Modelled from the spec: the similarity backend (`human.match.similarity`
of the external `@vladmandic/human` dependency) is not part of this
repository; the spec describes it as a "normalized distance-based score in
range [0,1], where 1.0 = identical vectors", with the wrapper's comment
noting the library multiplier 20.  Modelled as the squared distance scaled
by 20, inverted and clamped to [0,1]; identical vectors have distance 0 and
score exactly 1. -/
def humanSimilarity (a b : List ℚ) : ℚ :=
  clamp01 (1 - 20 * sqDist a b)

/-- `compareFaces` (`face-ai.ts` lines 357–360): delegates to the similarity
backend with library defaults. -/
def compareFaces (a b : List ℚ) : ℚ := humanSimilarity a b

theorem sqDist_nonneg (a b : List ℚ) : 0 ≤ sqDist a b := by
  induction a generalizing b with
  | nil => cases b <;> simp [sqDist]
  | cons x xs ih =>
    cases b with
    | nil => simp [sqDist]
    | cons y ys =>
      have h1 : (0 : ℚ) ≤ (x - y)^2 := sq_nonneg _
      have h2 := ih ys
      simp only [sqDist]
      linarith

theorem sqDist_self (a : List ℚ) : sqDist a a = 0 := by
  induction a with
  | nil => simp [sqDist]
  | cons x xs ih => simp [sqDist, ih]

/-- C6 — the similarity score of `compareFaces` lies in [0,1] for every pair
of embeddings, and comparing an embedding with itself yields exactly 1. -/
theorem compareFaces_range_and_self (a b : List ℚ) :
    0 ≤ compareFaces a b ∧ compareFaces a b ≤ 1 ∧ compareFaces a a = 1 := by
  refine ⟨?_, ?_, ?_⟩
  · unfold compareFaces humanSimilarity clamp01
    split_ifs with h1 h2
    · exact le_refl 0
    · norm_num
    · linarith
  · unfold compareFaces humanSimilarity clamp01
    split_ifs with h1 h2
    · norm_num
    · exact le_refl 1
    · linarith
  · simp [compareFaces, humanSimilarity, sqDist_self, clamp01]

/-- Similarity threshold for face matching (default 0.4; `part_018`
`DEFAULT_MATCH_THRESHOLD`, spec §4.5/§6). -/
def DEFAULT_MATCH_THRESHOLD : ℚ := 2/5

/-- Modelled from the spec: the Match Engine is not implemented in the
repository (the find-me route is a placeholder awaiting it); the spec's
algorithm is "compute score for every candidate, filter to score ≥
threshold, sort descending by score; ties broken by stable input order".
`mergeSort` with a non-strict descending comparison is the stable sort. -/
def matchEngine {α : Type} (query : List ℚ)
    (candidates : List (α × List ℚ)) (threshold : ℚ) : List (α × ℚ) :=
  ((candidates.map fun c => (c.1, compareFaces query c.2)).filter
      fun s => decide (threshold ≤ s.2)).mergeSort
    fun a b => decide (b.2 ≤ a.2)

/-- C5 — for every query, candidate list and threshold, the match result is
a permutation of the score-filtered candidates (every returned score ≥ t,
every excluded candidate scores < t), is sorted non-increasing by score,
breaks score ties by stable input order (each equal-score class appears in
input order), and is the empty list — not an error — when no candidate
clears the threshold. -/
theorem matchEngine_spec {α : Type} (q : List ℚ)
    (cands : List (α × List ℚ)) (t : ℚ) :
    (matchEngine q cands t).Perm
        (((cands.map fun c => (c.1, compareFaces q c.2)).filter
          fun s => decide (t ≤ s.2))) ∧
      (∀ x ∈ matchEngine q cands t, t ≤ x.2) ∧
      (∀ x ∈ (cands.map fun c => (c.1, compareFaces q c.2)),
        x ∉ matchEngine q cands t → x.2 < t) ∧
      (matchEngine q cands t).Pairwise (fun a b => b.2 ≤ a.2) ∧
      (∀ s : ℚ,
        (matchEngine q cands t).filter (fun x => decide (x.2 = s))
          = ((cands.map fun c => (c.1, compareFaces q c.2)).filter
              fun s2 => decide (t ≤ s2.2)).filter (fun x => decide (x.2 = s))) ∧
      ((∀ c ∈ cands, compareFaces q c.2 < t) → matchEngine q cands t = []) := by
  have htrans : ∀ (a b c : α × ℚ),
      (fun a b => decide (b.2 ≤ a.2)) a b → (fun a b => decide (b.2 ≤ a.2)) b c →
        (fun a b => decide (b.2 ≤ a.2)) a c := by
    intro a b c h1 h2
    simp only [decide_eq_true_eq] at h1 h2 ⊢
    exact le_trans h2 h1
  have htotal : ∀ (a b : α × ℚ),
      ((fun a b => decide (b.2 ≤ a.2)) a b
        || (fun a b => decide (b.2 ≤ a.2)) b a) = true := by
    intro a b
    simp only [Bool.or_eq_true, decide_eq_true_eq]
    exact le_total b.2 a.2
  have hout : matchEngine q cands t
      = ((cands.map fun c => (c.1, compareFaces q c.2)).filter
          fun s => decide (t ≤ s.2)).mergeSort (fun a b => decide (b.2 ≤ a.2)) :=
    rfl
  have hperm : (matchEngine q cands t).Perm
      (((cands.map fun c => (c.1, compareFaces q c.2)).filter
        fun s => decide (t ≤ s.2))) := by
    rw [hout]
    exact List.mergeSort_perm _ _
  refine ⟨hperm, ?_, ?_, ?_, ?_, ?_⟩
  · intro x hx
    have hx2 : x ∈ ((cands.map fun c => (c.1, compareFaces q c.2)).filter
        fun s => decide (t ≤ s.2)) := hperm.mem_iff.1 hx
    have := (List.mem_filter.1 hx2).2
    exact of_decide_eq_true this
  · intro x hx hnot
    by_contra hge
    push_neg at hge
    apply hnot
    apply hperm.mem_iff.2
    exact List.mem_filter.2 ⟨hx, decide_eq_true hge⟩
  · rw [hout]
    have hp := List.sorted_mergeSort htrans htotal
      (((cands.map fun c => (c.1, compareFaces q c.2)).filter
        fun s => decide (t ≤ s.2)))
    exact hp.imp fun h => of_decide_eq_true h
  · intro s
    have hs : ∀ x ∈ (((cands.map fun c => (c.1, compareFaces q c.2)).filter
        fun s2 => decide (t ≤ s2.2)).filter (fun x => decide (x.2 = s))),
        x.2 = s := by
      intro x hx
      exact of_decide_eq_true (List.mem_filter.1 hx).2
    have hcpair : (((cands.map fun c => (c.1, compareFaces q c.2)).filter
        fun s2 => decide (t ≤ s2.2)).filter
          (fun x => decide (x.2 = s))).Pairwise
            (fun a b => (fun a b => decide (b.2 ≤ a.2)) a b = true) := by
      apply List.pairwise_of_forall_mem_list
      intro a ha b hb
      have h1 := hs a ha
      have h2 := hs b hb
      simp only [decide_eq_true_eq, h1, h2]
      exact le_refl s
    have hsub : (((cands.map fun c => (c.1, compareFaces q c.2)).filter
        fun s2 => decide (t ≤ s2.2)).filter (fun x => decide (x.2 = s))).Sublist
          ((cands.map fun c => (c.1, compareFaces q c.2)).filter
            fun s2 => decide (t ≤ s2.2)) :=
      List.filter_sublist _
    have hc_out := List.sublist_mergeSort htrans htotal hcpair hsub
    rw [← hout] at hc_out
    have hfc : (((cands.map fun c => (c.1, compareFaces q c.2)).filter
        fun s2 => decide (t ≤ s2.2)).filter
          (fun x => decide (x.2 = s))).filter (fun x => decide (x.2 = s))
        = ((cands.map fun c => (c.1, compareFaces q c.2)).filter
            fun s2 => decide (t ≤ s2.2)).filter (fun x => decide (x.2 = s)) := by
      apply List.filter_eq_self.2
      intro x hx
      exact (List.mem_filter.1 hx).2
    have h1 := hc_out.filter (fun x => decide (x.2 = s))
    rw [hfc] at h1
    have h2 := hperm.filter (fun x => decide (x.2 = s))
    exact (h1.eq_of_length h2.length_eq.symm).symm
  · intro hall
    have hnil : ((cands.map fun c => (c.1, compareFaces q c.2)).filter
        fun s => decide (t ≤ s.2)) = [] := by
      apply List.filter_eq_nil_iff.2
      intro x hx
      obtain ⟨c, hc, hxc⟩ := List.mem_map.1 hx
      have := hall c hc
      simp only [decide_eq_true_eq]
      intro hle
      rw [← hxc] at hle
      simp only at hle
      linarith
    rw [hout, hnil]
    exact List.mergeSort_nil

/-- Witness for C5 at a concrete input: the query `[1]` against candidates
`(0, [1])` (score 1) and `(1, [0])` (score 0) with threshold 2/5 keeps
only candidate 0, whose returned score is at least the threshold. -/
theorem matchEngine_spec_witness :
    matchEngine [(1 : ℚ)] [((0 : Nat), [(1 : ℚ)]), (1, [0])] (2/5)
        = [(0, (1 : ℚ))] ∧
      ((0 : Nat), (1 : ℚ)) ∈ matchEngine [(1 : ℚ)]
          [((0 : Nat), [(1 : ℚ)]), (1, [0])] (2/5) ∧
      (2/5 : ℚ) ≤ ((0 : Nat), (1 : ℚ)).2 := by
  have hfil : (([((0 : Nat), [(1 : ℚ)]), (1, [0])].map
      fun c => (c.1, compareFaces [(1 : ℚ)] c.2)).filter
        fun s => decide ((2/5 : ℚ) ≤ s.2)) = [(0, (1 : ℚ))] := by
    norm_num [compareFaces, humanSimilarity, sqDist, clamp01, List.filter_cons]
  have hv : matchEngine [(1 : ℚ)] [((0 : Nat), [(1 : ℚ)]), (1, [0])] (2/5)
      = [(0, (1 : ℚ))] := by
    unfold matchEngine
    rw [hfil]
    exact List.mergeSort_singleton _
  have hmem : ((0 : Nat), (1 : ℚ)) ∈ matchEngine [(1 : ℚ)]
      [((0 : Nat), [(1 : ℚ)]), (1, [0])] (2/5) := by
    rw [hv]; exact List.mem_singleton_self _
  exact ⟨hv, hmem,
    (matchEngine_spec [(1 : ℚ)] [((0 : Nat), [(1 : ℚ)]), (1, [0])]
      (2/5)).2.1 _ hmem⟩

-- ===========================================================================
-- face-ai.ts : initialization state and error/resource behaviour
-- ===========================================================================

/-- C7 — with the library initialized and a decodable image, a detection
result with zero faces makes `processPhotoForEmbeddings` return normally
with `facesCount = 0` and an empty faces list, while a backend exception
propagates out as a hard failure, an outcome distinct from the zero-faces
success. -/
theorem processPhotoForEmbeddings_zero_faces_vs_error
    (det : Except String (List RawFace)) (e : String) :
    (det = Except.ok [] →
      (processPhotoForEmbeddings true (Except.ok ()) det).1
        = Except.ok { facesCount := 0, faces := [] }) ∧
      (det = Except.error e →
        (processPhotoForEmbeddings true (Except.ok ()) det).1
          = Except.error (FaceAiFailure.backend e)) ∧
      (Except.error (FaceAiFailure.backend e)
        ≠ (Except.ok { facesCount := 0, faces := [] } :
            Except FaceAiFailure PhotoProcessingResult)) := by
  refine ⟨?_, ?_, ?_⟩
  · rintro rfl
    rfl
  · rintro rfl
    rfl
  · intro h
    exact Except.noConfusion h

/-- Witness for C7 at concrete inputs: an ok-empty detection yields the
zero-faces success, a backend exception propagates. -/
theorem processPhotoForEmbeddings_zero_faces_vs_error_witness :
    (processPhotoForEmbeddings true (Except.ok ()) (Except.ok [])).1
        = Except.ok { facesCount := 0, faces := [] } ∧
      (processPhotoForEmbeddings true (Except.ok ())
          (Except.error "decode failure")).1
        = Except.error (FaceAiFailure.backend "decode failure") := by
  refine ⟨?_, ?_⟩
  · exact (processPhotoForEmbeddings_zero_faces_vs_error
      (Except.ok []) "decode failure").1 rfl
  · exact (processPhotoForEmbeddings_zero_faces_vs_error
      (Except.error "decode failure") "decode failure").2.1 rfl

/-- Mutable module state of `face-ai.ts`: the `isInitialized` flag (line
100), plus counters of how often `human.load()` / `human.warmup()` ran —
the observable resource effect of `initHuman`. -/
structure HumanState where
  isInitialized : Bool
  loadCalls : Nat
  warmupCalls : Nat
deriving DecidableEq, Repr

/-- `initHuman` (`face-ai.ts` lines 107–118): returns immediately when
already initialized; otherwise loads and warms up the model once and sets
the flag. -/
def initHuman (s : HumanState) : HumanState :=
  if s.isInitialized then s
  else
    { isInitialized := true
      loadCalls := s.loadCalls + 1
      warmupCalls := s.warmupCalls + 1 }

/-- C8 — `initHuman` is idempotent: a second call is a no-op, any positive
number of calls has the effect of one call (so the model is loaded at most
once and no resource is duplicated), a call always leaves the state
initialized, and from an already-initialized state a call changes nothing. -/
theorem initHuman_idempotent (s : HumanState) (n : Nat) :
    initHuman (initHuman s) = initHuman s ∧
      initHuman^[n + 1] s = initHuman s ∧
      (initHuman s).isInitialized = true ∧
      (s.isInitialized = true → initHuman s = s) := by
  have hidem : initHuman (initHuman s) = initHuman s := by
    unfold initHuman
    by_cases h : s.isInitialized <;> simp [h]
  have hinit : (initHuman s).isInitialized = true := by
    unfold initHuman
    by_cases h : s.isInitialized <;> simp [h]
  refine ⟨hidem, ?_, hinit, ?_⟩
  · induction n with
    | zero => simp
    | succ k ih =>
      rw [Function.iterate_succ_apply', ih, hidem]
  · intro h
    unfold initHuman
    simp [h]

/-- Witness for C8 at a concrete state: from an initialized state with 5
recorded loads, repeated calls change nothing and load nothing further. -/
theorem initHuman_idempotent_witness :
    initHuman (initHuman (HumanState.mk true 5 5))
        = initHuman (HumanState.mk true 5 5) ∧
      initHuman^[3] (HumanState.mk true 5 5)
        = initHuman (HumanState.mk true 5 5) ∧
      (initHuman (HumanState.mk true 5 5)).isInitialized = true ∧
      initHuman (HumanState.mk true 5 5) = HumanState.mk true 5 5 := by
  obtain ⟨h1, h2, h3, h4⟩ := initHuman_idempotent (HumanState.mk true 5 5) 2
  exact ⟨h1, h2, h3, h4 rfl⟩

/-- C9 — both `processPhotoForEmbeddings` and `validateSelfie` balance the
per-call tensor allocation on every exit path: allocations equal disposals
for every combination of initialization state, decode outcome and detection
outcome, and on the paths that actually decode a tensor (initialized,
decode succeeds) the tensor is allocated and disposed exactly once, whether
detection succeeds or throws. -/
theorem tensor_disposed_on_every_path (init : Bool)
    (dec : Except String Unit) (det : Except String (List RawFace))
    (opts : SelfieOptions) :
    ((processPhotoForEmbeddings init dec det).2.allocated
        = (processPhotoForEmbeddings init dec det).2.disposed) ∧
      ((validateSelfie init dec det opts).2.allocated
        = (validateSelfie init dec det opts).2.disposed) ∧
      (init = true → dec = Except.ok () →
        (processPhotoForEmbeddings init dec det).2 = ⟨1, 1⟩ ∧
        (validateSelfie init dec det opts).2 = ⟨1, 1⟩) := by
  cases init <;> cases dec <;> cases det <;>
    simp [processPhotoForEmbeddings, validateSelfie]

/-- Witness for C9 at a concrete input: a throwing detection on an
initialized library with a decoded tensor still disposes the tensor exactly
once in both functions. -/
theorem tensor_disposed_on_every_path_witness :
    ((processPhotoForEmbeddings true (Except.ok ())
        (Except.error "inference failure")).2.allocated
      = (processPhotoForEmbeddings true (Except.ok ())
          (Except.error "inference failure")).2.disposed) ∧
      ((validateSelfie true (Except.ok ())
          (Except.error "inference failure") {}).2.allocated
        = (validateSelfie true (Except.ok ())
            (Except.error "inference failure") {}).2.disposed) ∧
      ((processPhotoForEmbeddings true (Except.ok ())
          (Except.error "inference failure")).2 = ⟨1, 1⟩ ∧
        (validateSelfie true (Except.ok ())
            (Except.error "inference failure") {}).2 = ⟨1, 1⟩) := by
  obtain ⟨h1, h2, h3⟩ := tensor_disposed_on_every_path true (Except.ok ())
    (Except.error "inference failure") {}
  exact ⟨h1, h2, h3 rfl rfl⟩
